import Mathlib

/-!
Shallow embedding of the websocket subscription router of `go-hitbtc`
(`websocket.go`).  Go channels are modelled by numeric identifiers handed
out from a counter; a channel store records which identifiers have been
closed.  A Go map `map[string]chan T` is modelled as an association list
`List (String × Nat)` from symbol to channel identifier: an absent key in
a Go map yields the zero value `nil`, modelled by `none` on lookup.
Go runtime faults are explicit: `close` of a nil or already-closed channel
is a panic, and a send on a nil channel blocks forever.
-/

namespace HitBTC

/-- Outcome of running a piece of Go code: normal return, runtime panic,
or blocking forever (a send/receive on a nil channel never proceeds). -/
inductive Out (α : Type) where
  | ok (a : α) : Out α
  | panicked (msg : String) : Out α
  | blocked : Out α
deriving DecidableEq, Repr

/-- `WSNotificationTickerResponse` (websocket.go): ticker notification. -/
structure WSNotificationTickerResponse where
  ask : String
  bid : String
  last : String
  open_ : String
  low : String
  high : String
  volume : String
  volumeQuote : String
  timestamp : String
  symbol : String
deriving DecidableEq, Repr

/-- `WSTrades` (websocket.go): one trade item. -/
structure WSTrades where
  id : Int
  price : String
  quantity : String
  side : String
  timestamp : String
deriving DecidableEq, Repr

/-- `WSNotificationTradesSnapshot` (websocket.go). -/
structure WSNotificationTradesSnapshot where
  data : List WSTrades
  symbol : String
deriving DecidableEq, Repr

/-- `WSNotificationTradesUpdate` (websocket.go). -/
structure WSNotificationTradesUpdate where
  data : WSTrades
  symbol : String
deriving DecidableEq, Repr

/-- `WSSubtypeTrade` (websocket.go): one order-book level. -/
structure WSSubtypeTrade where
  price : String
  size : String
deriving DecidableEq, Repr

/-- `WSNotificationOrderbookSnapshot` (websocket.go). -/
structure WSNotificationOrderbookSnapshot where
  ask : List WSSubtypeTrade
  bid : List WSSubtypeTrade
  symbol : String
  sequence : Int
deriving DecidableEq, Repr

/-- `WSNotificationOrderbookUpdate` (websocket.go). -/
structure WSNotificationOrderbookUpdate where
  ask : List WSSubtypeTrade
  bid : List WSSubtypeTrade
  symbol : String
  sequence : Int
deriving DecidableEq, Repr

/-- `WSCandles` (websocket.go); the Go `time.Time` timestamp is modelled
as the opaque string it was parsed from. -/
structure WSCandles where
  timestamp : String
  open_ : String
  close_ : String
  min : String
  max : String
  volume : String
  volumeQuote : String
deriving DecidableEq, Repr

/-- `WSNotificationCandlesSnapshot` (websocket.go). -/
structure WSNotificationCandlesSnapshot where
  data : List WSCandles
  symbol : String
  period : String
deriving DecidableEq, Repr

/-- `WSNotificationCandlesUpdate` (websocket.go). -/
structure WSNotificationCandlesUpdate where
  data : WSCandles
  symbol : String
  period : String
deriving DecidableEq, Repr

deriving instance DecidableEq for Except

/-- The behaviour of `json.Unmarshal` on one inbound raw payload, one field
per target type `Handle` may decode it into: either a decode error message
or the decoded value.  This is the standard oracle for the external
JSON decoder: `Handle` consults exactly one field, chosen by the method. -/
structure RawPayload where
  asTicker : Except String WSNotificationTickerResponse
  asObSnapshot : Except String WSNotificationOrderbookSnapshot
  asObUpdate : Except String WSNotificationOrderbookUpdate
  asTrSnapshot : Except String WSNotificationTradesSnapshot
  asTrUpdate : Except String WSNotificationTradesUpdate
  asCanSnapshot : Except String WSNotificationCandlesSnapshot
  asCanUpdate : Except String WSNotificationCandlesUpdate
deriving DecidableEq, Repr

/-- A value observed on some channel: one constructor per notification
type sent by `Handle`, plus the error values sent on `ErrorFeed`. -/
inductive Sent where
  | tickerV (m : WSNotificationTickerResponse)
  | obSnapshotV (m : WSNotificationOrderbookSnapshot)
  | obUpdateV (m : WSNotificationOrderbookUpdate)
  | trSnapshotV (m : WSNotificationTradesSnapshot)
  | trUpdateV (m : WSNotificationTradesUpdate)
  | canSnapshotV (m : WSNotificationCandlesSnapshot)
  | canUpdateV (m : WSNotificationCandlesUpdate)
  | errV (e : String)
deriving DecidableEq, Repr

/-- A symbol-keyed feed map `map[string]chan T` of `responseChannels`,
with channels as identifiers. -/
abbrev FeedMap := List (String × Nat)

/-- Go map read `m[sym]`: `none` models the nil zero value for a missing
key. -/
def mlookup (m : FeedMap) (sym : String) : Option Nat :=
  match m with
  | [] => none
  | (k, v) :: t => if k = sym then some v else mlookup t sym

/-- Go `delete(m, sym)`. -/
def merase (m : FeedMap) (sym : String) : FeedMap :=
  match m with
  | [] => []
  | (k, v) :: t => if k = sym then merase t sym else (k, v) :: merase t sym

/-- The state of a `WSClient` together with its `responseChannels`
(`updates`): the seven feed maps, the shared `ErrorFeed` channel, the
channel-identifier counter, the set of closed channel identifiers, and
the connection handle (`connNil` models `c.conn == nil`; `connClosed`
models the transport having been shut). -/
structure WSState where
  connNil : Bool
  connClosed : Bool
  tickerFeed : FeedMap
  tradesUpdFeed : FeedMap
  tradesSnapFeed : FeedMap
  obUpdFeed : FeedMap
  obSnapFeed : FeedMap
  candlesUpdFeed : FeedMap
  candlesSnapFeed : FeedMap
  errorFeed : Nat
  nextChan : Nat
  closedChans : List Nat
deriving DecidableEq, Repr

/-- The state built by `NewWSClient`: all seven maps empty, a fresh open
`ErrorFeed`, a live connection. -/
def initState : WSState :=
  { connNil := false
    connClosed := false
    tickerFeed := []
    tradesUpdFeed := []
    tradesSnapFeed := []
    obUpdFeed := []
    obSnapFeed := []
    candlesUpdFeed := []
    candlesSnapFeed := []
    errorFeed := 0
    nextChan := 1
    closedChans := [] }

/-- The base of an error a subscription operation can produce. -/
inductive SubErrB where
  | connUninit
  | transport (msg : String)
  | rejected
deriving DecidableEq, Repr

/-- An error as returned to the API caller: `errors.Annotate` wraps the
base error with the operation name ("Hitbtc SubscribeTicker", ...). -/
structure APIError where
  annot : String
  base : SubErrB
deriving DecidableEq, Repr

/-- Result of the transport's `conn.Call` for a subscribe/unsubscribe
request: a transport-level error, or the boolean acknowledgment decoded
into `wsSubscriptionResponse`. -/
abbrev CallResult := Except String Bool

/-- Result of `subscriptionOp` / `candlesSubscriptionOp`: whether the
transport call was issued (dereferencing `c.conn`), and the error
returned, if any. -/
structure OpResult where
  called : Bool
  err : Option SubErrB
deriving DecidableEq, Repr

/-- `subscriptionOp` (websocket.go:496-514): nil-connection guard
returning the "Connection is unitialized" error without calling the
transport; then `conn.Call`; a false acknowledgment becomes the
"Subscribe not successful" (rejected) error. -/
def subscriptionOp (connNil : Bool) (call : CallResult) : OpResult :=
  if connNil then
    { called := false, err := some SubErrB.connUninit }
  else
    match call with
    | Except.error e => { called := true, err := some (SubErrB.transport e) }
    | Except.ok success =>
        if !success then { called := true, err := some SubErrB.rejected }
        else { called := true, err := none }

/-- `candlesSubscriptionOp` (websocket.go:516-526): no nil-connection
guard — `c.conn.Call` is invoked (the connection dereferenced)
unconditionally — and the boolean acknowledgment in `response` is never
inspected: only a transport error is returned. -/
def candlesSubscriptionOp (call : CallResult) : OpResult :=
  match call with
  | Except.error e => { called := true, err := some (SubErrB.transport e) }
  | Except.ok _ => { called := true, err := none }

/-- The recurring subscribe pattern `if m[sym] == nil { m[sym] = make(chan …) }`
followed by reading `m[sym]`: returns the updated map, the channel found
or created, and the updated channel counter. -/
def feedEnsure (m : FeedMap) (sym : String) (next : Nat) : FeedMap × Nat × Nat :=
  match mlookup m sym with
  | some id => (m, id, next)
  | none => ((sym, next) :: m, next, next + 1)

/-- The recurring unsubscribe pattern `close(m[sym]); delete(m, sym)`:
`none` models the Go panic (`close` of a nil channel when the key is
absent, or of an already-closed channel); otherwise the updated map and
closed set. -/
def feedRemove (m : FeedMap) (sym : String) (closed : List Nat) :
    Option (FeedMap × List Nat) :=
  match mlookup m sym with
  | none => none
  | some id =>
      if id ∈ closed then none
      else some (merase m sym, id :: closed)

/-- Result of a subscribe call: the returned channel(s) (`snap = none`
for ticker), the returned error, whether the transport was called, and
the state after. -/
structure SubRes where
  upd : Option Nat
  snap : Option Nat
  err : Option APIError
  called : Bool
  st : WSState
deriving DecidableEq, Repr

/-- Result of an unsubscribe call. -/
structure UnsubRes where
  err : Option APIError
  called : Bool
  st : WSState
deriving DecidableEq, Repr

/-- `SubscribeTicker` (websocket.go:284-295). -/
def SubscribeTicker (s : WSState) (call : CallResult) (symbol : String) :
    Out SubRes :=
  let op := subscriptionOp s.connNil call
  match op.err with
  | some e =>
      Out.ok { upd := none, snap := none,
               err := some { annot := "Hitbtc SubscribeTicker", base := e },
               called := op.called, st := s }
  | none =>
      let (m, id, n) := feedEnsure s.tickerFeed symbol s.nextChan
      Out.ok { upd := some id, snap := none, err := none, called := op.called,
               st := { s with tickerFeed := m, nextChan := n } }

/-- `UnsubscribeTicker` (websocket.go:300-310): after a successful op it
closes and deletes the ticker channel for the symbol (panicking when the
entry is absent: `close` of a nil channel). -/
def UnsubscribeTicker (s : WSState) (call : CallResult) (symbol : String) :
    Out UnsubRes :=
  let op := subscriptionOp s.connNil call
  match op.err with
  | some e =>
      Out.ok { err := some { annot := "Hitbtc UnsubscribeTicker", base := e },
               called := op.called, st := s }
  | none =>
      match feedRemove s.tickerFeed symbol s.closedChans with
      | none => Out.panicked "close of nil or closed channel"
      | some (m, c) =>
          Out.ok { err := none, called := op.called,
                   st := { s with tickerFeed := m, closedChans := c } }

/-- `SubscribeTrades` (websocket.go:334-348): ensures the updates channel
then the snapshot channel. -/
def SubscribeTrades (s : WSState) (call : CallResult) (symbol : String) :
    Out SubRes :=
  let op := subscriptionOp s.connNil call
  match op.err with
  | some e =>
      Out.ok { upd := none, snap := none,
               err := some { annot := "Hitbtc SubscribeTrades", base := e },
               called := op.called, st := s }
  | none =>
      let (m1, u, n1) := feedEnsure s.tradesUpdFeed symbol s.nextChan
      let (m2, v, n2) := feedEnsure s.tradesSnapFeed symbol n1
      Out.ok { upd := some u, snap := some v, err := none, called := op.called,
               st := { s with tradesUpdFeed := m1, tradesSnapFeed := m2,
                              nextChan := n2 } }

/-- `UnsubscribeTrades` (websocket.go:353-365): closes and deletes the
updates channel, then the snapshot channel. -/
def UnsubscribeTrades (s : WSState) (call : CallResult) (symbol : String) :
    Out UnsubRes :=
  let op := subscriptionOp s.connNil call
  match op.err with
  | some e =>
      Out.ok { err := some { annot := "Hitbtc UnsubscribeTrades", base := e },
               called := op.called, st := s }
  | none =>
      match feedRemove s.tradesUpdFeed symbol s.closedChans with
      | none => Out.panicked "close of nil or closed channel"
      | some (m1, c1) =>
          match feedRemove s.tradesSnapFeed symbol c1 with
          | none => Out.panicked "close of nil or closed channel"
          | some (m2, c2) =>
              Out.ok { err := none, called := op.called,
                       st := { s with tradesUpdFeed := m1, tradesSnapFeed := m2,
                                      closedChans := c2 } }

/-- `SubscribeOrderbook` (websocket.go:390-404). -/
def SubscribeOrderbook (s : WSState) (call : CallResult) (symbol : String) :
    Out SubRes :=
  let op := subscriptionOp s.connNil call
  match op.err with
  | some e =>
      Out.ok { upd := none, snap := none,
               err := some { annot := "Hitbtc SubscribeOrderbook", base := e },
               called := op.called, st := s }
  | none =>
      let (m1, u, n1) := feedEnsure s.obUpdFeed symbol s.nextChan
      let (m2, v, n2) := feedEnsure s.obSnapFeed symbol n1
      Out.ok { upd := some u, snap := some v, err := none, called := op.called,
               st := { s with obUpdFeed := m1, obSnapFeed := m2,
                              nextChan := n2 } }

/-- `UnsubscribeOrderbook` (websocket.go:409-421). -/
def UnsubscribeOrderbook (s : WSState) (call : CallResult) (symbol : String) :
    Out UnsubRes :=
  let op := subscriptionOp s.connNil call
  match op.err with
  | some e =>
      Out.ok { err := some { annot := "Hitbtc UnsubscribeOrderbook", base := e },
               called := op.called, st := s }
  | none =>
      match feedRemove s.obUpdFeed symbol s.closedChans with
      | none => Out.panicked "close of nil or closed channel"
      | some (m1, c1) =>
          match feedRemove s.obSnapFeed symbol c1 with
          | none => Out.panicked "close of nil or closed channel"
          | some (m2, c2) =>
              Out.ok { err := none, called := op.called,
                       st := { s with obUpdFeed := m1, obSnapFeed := m2,
                                      closedChans := c2 } }

/-- `SubscribeCandles` (websocket.go:462-477): uses
`candlesSubscriptionOp` with the period; the feed maps are keyed by
symbol only. -/
def SubscribeCandles (s : WSState) (call : CallResult)
    (symbol period : String) : Out SubRes :=
  let op := candlesSubscriptionOp call
  match op.err with
  | some e =>
      Out.ok { upd := none, snap := none,
               err := some { annot := "Hitbtc SubscribeCandles", base := e },
               called := op.called, st := s }
  | none =>
      let (m1, u, n1) := feedEnsure s.candlesUpdFeed symbol s.nextChan
      let (m2, v, n2) := feedEnsure s.candlesSnapFeed symbol n1
      Out.ok { upd := some u, snap := some v, err := none, called := op.called,
               st := { s with candlesUpdFeed := m1, candlesSnapFeed := m2,
                              nextChan := n2 } }

/-- `UnsubscribeCandles` (websocket.go:482-494). -/
def UnsubscribeCandles (s : WSState) (call : CallResult)
    (symbol period : String) : Out UnsubRes :=
  let op := candlesSubscriptionOp call
  match op.err with
  | some e =>
      Out.ok { err := some { annot := "Hitbtc UnsubscribeCandles", base := e },
               called := op.called, st := s }
  | none =>
      match feedRemove s.candlesUpdFeed symbol s.closedChans with
      | none => Out.panicked "close of nil or closed channel"
      | some (m1, c1) =>
          match feedRemove s.candlesSnapFeed symbol c1 with
          | none => Out.panicked "close of nil or closed channel"
          | some (m2, c2) =>
              Out.ok { err := none, called := op.called,
                       st := { s with candlesUpdFeed := m1,
                                      candlesSnapFeed := m2,
                                      closedChans := c2 } }

/-- A send `ch <- v` on a feed channel looked up from a map: on a missing
key the channel is nil and the send blocks forever; on a closed channel
it panics; otherwise the delivered value is the observable event. -/
def sendOn (closed : List Nat) (ch : Option Nat) (v : Sent) :
    Out (List (Nat × Sent)) :=
  match ch with
  | none => Out.blocked
  | some id =>
      if id ∈ closed then Out.panicked "send on closed channel"
      else Out.ok [(id, v)]

/-- The send `h.ErrorFeed <- err` of a decode error. -/
def sendErr (s : WSState) (e : String) : Out (List (Nat × Sent)) :=
  if s.errorFeed ∈ s.closedChans then Out.panicked "send on closed channel"
  else Out.ok [(s.errorFeed, Sent.errV e)]

/-- `Handle` (websocket.go:36-98): the dispatch handler.  Skips requests
without params; switches on the method name; unmarshals into the typed
shape for that method; on a decode error sends the error on `ErrorFeed`,
otherwise sends the value on the feed channel indexed by the decoded
symbol.  The result is the list of observable send events (the handler
never mutates the state). -/
def Handle (s : WSState) (method : String) (params : Option RawPayload) :
    Out (List (Nat × Sent)) :=
  match params with
  | none => Out.ok []
  | some p =>
      match method with
      | "ticker" =>
          match p.asTicker with
          | Except.error e => sendErr s e
          | Except.ok msg =>
              sendOn s.closedChans (mlookup s.tickerFeed msg.symbol)
                (Sent.tickerV msg)
      | "snapshotOrderbook" =>
          match p.asObSnapshot with
          | Except.error e => sendErr s e
          | Except.ok msg =>
              sendOn s.closedChans (mlookup s.obSnapFeed msg.symbol)
                (Sent.obSnapshotV msg)
      | "updateOrderbook" =>
          match p.asObUpdate with
          | Except.error e => sendErr s e
          | Except.ok msg =>
              sendOn s.closedChans (mlookup s.obUpdFeed msg.symbol)
                (Sent.obUpdateV msg)
      | "snapshotTrades" =>
          match p.asTrSnapshot with
          | Except.error e => sendErr s e
          | Except.ok msg =>
              sendOn s.closedChans (mlookup s.tradesSnapFeed msg.symbol)
                (Sent.trSnapshotV msg)
      | "updateTrades" =>
          match p.asTrUpdate with
          | Except.error e => sendErr s e
          | Except.ok msg =>
              sendOn s.closedChans (mlookup s.tradesUpdFeed msg.symbol)
                (Sent.trUpdateV msg)
      | "snapshotCandles" =>
          match p.asCanSnapshot with
          | Except.error e => sendErr s e
          | Except.ok msg =>
              sendOn s.closedChans (mlookup s.candlesSnapFeed msg.symbol)
                (Sent.canSnapshotV msg)
      | "updateCandles" =>
          match p.asCanUpdate with
          | Except.error e => sendErr s e
          | Except.ok msg =>
              sendOn s.closedChans (mlookup s.candlesUpdFeed msg.symbol)
                (Sent.canUpdateV msg)
      | _ => Out.ok []

/-- The channel identifiers held in a feed map. -/
def feedIds (m : FeedMap) : List Nat := m.map (fun p => p.2)

/-- Every channel identifier held across the seven feed maps, in the
order `Close` iterates them (websocket.go:138-158). -/
def allMapIds (s : WSState) : List Nat :=
  feedIds s.tickerFeed ++ feedIds s.tradesUpdFeed ++
  feedIds s.candlesUpdFeed ++ feedIds s.obUpdFeed ++
  feedIds s.obSnapFeed ++ feedIds s.tradesSnapFeed ++
  feedIds s.candlesSnapFeed

/-- Close each channel of a list in turn; `none` models the panic of a
double close. -/
def closeAll (ids : List Nat) (closed : List Nat) : Option (List Nat) :=
  match ids with
  | [] => some closed
  | id :: rest =>
      if id ∈ closed then none else closeAll rest (id :: closed)

/-- `Close` (websocket.go:135-170): closes the transport connection, then
every channel of the seven feed maps, then `ErrorFeed`; then resets every
map to a fresh empty map and `ErrorFeed` to a fresh open channel.  A nil
connection handle or a double close of a channel is a panic. -/
def Close (s : WSState) : Out WSState :=
  if s.connNil then Out.panicked "nil connection" else
  match closeAll (allMapIds s ++ [s.errorFeed]) s.closedChans with
  | none => Out.panicked "close of closed channel"
  | some closed =>
      Out.ok { connNil := s.connNil
               connClosed := true
               tickerFeed := []
               tradesUpdFeed := []
               tradesSnapFeed := []
               obUpdFeed := []
               obSnapFeed := []
               candlesUpdFeed := []
               candlesSnapFeed := []
               errorFeed := s.nextChan
               nextChan := s.nextChan + 1
               closedChans := closed }

/-- A receive `<-ch` on a channel obtained from a subscribe call, in a
state where no producer is sending: a nil channel blocks; a closed
channel yields the closed/no-more-values signal (`Out.ok none`)
immediately; an open channel with no sender blocks. -/
def recvOn (closed : List Nat) (ch : Option Nat) : Out (Option Sent) :=
  match ch with
  | none => Out.blocked
  | some id => if id ∈ closed then Out.ok none else Out.blocked

/-- Extract the value of a normal return, with a default for the panic
and blocked outcomes. -/
def Out.valD {α : Type} (d : α) : Out α → α
  | Out.ok a => a
  | Out.panicked _ => d
  | Out.blocked => d

/-- Default used only to make result extraction total. -/
def noSubRes : SubRes :=
  { upd := none, snap := none, err := none, called := false, st := initState }

/-- Default used only to make result extraction total. -/
def noUnsubRes : UnsubRes :=
  { err := none, called := false, st := initState }

/-- Well-formedness of a client state, as established by `NewWSClient`
and preserved by the API: every channel identifier held in a feed map or
in `ErrorFeed` is distinct from the others, open, and below the counter;
closed identifiers are below the counter. -/
structure WF (s : WSState) : Prop where
  nodup : (allMapIds s ++ [s.errorFeed]).Nodup
  ltNext : ∀ id ∈ allMapIds s ++ [s.errorFeed], id < s.nextChan
  openIds : ∀ id ∈ allMapIds s ++ [s.errorFeed], id ∉ s.closedChans
  closedLt : ∀ id ∈ s.closedChans, id < s.nextChan

/-! ### Basic lemmas about the map and channel-store operations -/

theorem mlookup_merase_self (m : FeedMap) (sym : String) :
    mlookup (merase m sym) sym = none := by
  induction m with
  | nil => rfl
  | cons p t ih =>
      obtain ⟨k, v⟩ := p
      by_cases h : k = sym
      · simpa [merase, h] using ih
      · simpa [merase, mlookup, h] using ih

theorem mlookup_mem (m : FeedMap) (sym : String) (id : Nat)
    (h : mlookup m sym = some id) : id ∈ feedIds m := by
  induction m with
  | nil => simp [mlookup] at h
  | cons p t ih =>
      obtain ⟨k, v⟩ := p
      by_cases hk : k = sym
      · simp [mlookup, hk] at h
        simp [feedIds, h]
      · simp [mlookup, hk] at h
        simp [feedIds] at ih ⊢
        exact Or.inr (ih h)

theorem feedEnsure_cases (m : FeedMap) (sym : String) (next : Nat)
    {m' : FeedMap} {id n' : Nat}
    (h : feedEnsure m sym next = (m', id, n')) :
    (mlookup m sym = some id ∧ m' = m ∧ n' = next) ∨
    (mlookup m sym = none ∧ id = next ∧ m' = (sym, next) :: m ∧
      n' = next + 1) := by
  unfold feedEnsure at h
  cases hl : mlookup m sym with
  | none =>
      rw [hl] at h
      simp only [Prod.mk.injEq] at h
      obtain ⟨h1, h2, h3⟩ := h
      right
      exact ⟨rfl, h2.symm, by rw [← h1, h2], h3.symm⟩
  | some x =>
      rw [hl] at h
      simp only [Prod.mk.injEq] at h
      obtain ⟨h1, h2, h3⟩ := h
      left
      exact ⟨by simp [hl, h2], h1.symm, h3.symm⟩

theorem feedEnsure_lookup (m : FeedMap) (sym : String) (next : Nat)
    {m' : FeedMap} {id n' : Nat}
    (h : feedEnsure m sym next = (m', id, n')) :
    mlookup m' sym = some id := by
  rcases feedEnsure_cases m sym next h with ⟨h1, h2, _⟩ | ⟨_, h2, h3, _⟩
  · rw [h2]; exact h1
  · rw [h3, h2]; simp [mlookup]

theorem feedRemove_eq (m : FeedMap) (sym : String) (closed : List Nat)
    {id : Nat} (hl : mlookup m sym = some id) (ho : id ∉ closed) :
    feedRemove m sym closed = some (merase m sym, id :: closed) := by
  unfold feedRemove
  rw [hl]
  simp [ho]

theorem closeAll_ok (ids : List Nat) (closed : List Nat)
    (hnd : ids.Nodup) (hdisj : ∀ id ∈ ids, id ∉ closed) :
    closeAll ids closed = some (ids.reverse ++ closed) := by
  induction ids generalizing closed with
  | nil => rfl
  | cons id rest ih =>
      have h1 : id ∉ closed := hdisj id (List.mem_cons_self id rest)
      have h2 : rest.Nodup := (List.nodup_cons.mp hnd).2
      have h3 : ∀ x ∈ rest, x ∉ id :: closed := by
        intro x hx
        simp only [List.mem_cons, not_or]
        exact ⟨fun he => (List.nodup_cons.mp hnd).1 (he ▸ hx),
               hdisj x (List.mem_cons_of_mem id hx)⟩
      unfold closeAll
      rw [if_neg h1, ih (id :: closed) h2 h3]
      simp

theorem feedEnsure_of_lookup (m : FeedMap) (sym : String) (next : Nat)
    {u : Nat} (hl : mlookup m sym = some u) :
    feedEnsure m sym next = (m, u, next) := by
  unfold feedEnsure
  rw [hl]

theorem mem_allMapIds (s : WSState) (a : Nat) :
    a ∈ allMapIds s ↔
      a ∈ feedIds s.tickerFeed ∨ a ∈ feedIds s.tradesUpdFeed ∨
      a ∈ feedIds s.candlesUpdFeed ∨ a ∈ feedIds s.obUpdFeed ∨
      a ∈ feedIds s.obSnapFeed ∨ a ∈ feedIds s.tradesSnapFeed ∨
      a ∈ feedIds s.candlesSnapFeed := by
  simp [allMapIds, List.mem_append, or_assoc]

theorem WF.mapIds_open {s : WSState} (h : WF s) {a : Nat}
    (ha : a ∈ allMapIds s) : a ∉ s.closedChans :=
  h.openIds a (List.mem_append_left _ ha)

theorem WF.mapIds_lt {s : WSState} (h : WF s) {a : Nat}
    (ha : a ∈ allMapIds s) : a < s.nextChan :=
  h.ltNext a (List.mem_append_left _ ha)

theorem WF.next_open {s : WSState} (h : WF s) :
    s.nextChan ∉ s.closedChans :=
  fun hc => lt_irrefl _ (h.closedLt _ hc)

theorem WF.errorFeed_open {s : WSState} (h : WF s) :
    s.errorFeed ∉ s.closedChans :=
  h.openIds s.errorFeed (by simp)

theorem WF.errorFeed_not_sub {s : WSState} (h : WF s) :
    s.errorFeed ∉ allMapIds s := by
  have hn := h.nodup
  rw [List.nodup_append] at hn
  intro hm
  exact hn.2.2 hm (by simp)

theorem WF.disj_pairs {s : WSState} (h : WF s) :
    (∀ a ∈ feedIds s.tradesUpdFeed, a ∉ feedIds s.tradesSnapFeed) ∧
    (∀ a ∈ feedIds s.obUpdFeed, a ∉ feedIds s.obSnapFeed) ∧
    (∀ a ∈ feedIds s.candlesUpdFeed, a ∉ feedIds s.candlesSnapFeed) := by
  have hn := h.nodup
  simp only [allMapIds, List.nodup_append, List.disjoint_append_left,
    List.disjoint_append_right] at hn
  refine ⟨fun a ha hb => ?_, fun a ha hb => ?_, fun a ha hb => ?_⟩ <;> tauto

/-- Core of the subscribe-then-unsubscribe roundtrip for a topic with an
updates map and a snapshot map: after the two `feedEnsure` of a
subscribe, the two `feedRemove` of the unsubscribe succeed (no panic),
closing exactly the two returned channels. -/
theorem ensure_remove_two (m1 m2 : FeedMap) (sym : String)
    (next : Nat) (closed : List Nat)
    {m1' m2' : FeedMap} {u n1 v n2 : Nat}
    (hE1 : feedEnsure m1 sym next = (m1', u, n1))
    (hE2 : feedEnsure m2 sym n1 = (m2', v, n2))
    (h1open : ∀ a ∈ feedIds m1, a ∉ closed)
    (h1lt : ∀ a ∈ feedIds m1, a < next)
    (h2open : ∀ a ∈ feedIds m2, a ∉ closed)
    (h2lt : ∀ a ∈ feedIds m2, a < next)
    (hdisj : ∀ a ∈ feedIds m1, a ∉ feedIds m2)
    (hclt : ∀ a ∈ closed, a < next) :
    feedRemove m1' sym closed = some (merase m1' sym, u :: closed) ∧
    feedRemove m2' sym (u :: closed) =
      some (merase m2' sym, v :: u :: closed) := by
  have hl1 : mlookup m1' sym = some u := feedEnsure_lookup m1 sym next hE1
  have hl2 : mlookup m2' sym = some v := feedEnsure_lookup m2 sym n1 hE2
  have huo : u ∉ closed := by
    rcases feedEnsure_cases m1 sym next hE1 with ⟨hm, _, _⟩ | ⟨_, hu, _, _⟩
    · exact h1open u (mlookup_mem m1 sym u hm)
    · intro hc; have := hclt u hc; omega
  have hvne : v ≠ u ∧ v ∉ closed := by
    rcases feedEnsure_cases m1 sym next hE1 with ⟨hm1, _, hn1⟩ | ⟨_, hu, _, hn1⟩ <;>
      rcases feedEnsure_cases m2 sym n1 hE2 with ⟨hm2, _, _⟩ | ⟨_, hv, _, _⟩
    · have hv2 := mlookup_mem m2 sym v hm2
      have hu1 := mlookup_mem m1 sym u hm1
      exact ⟨fun he => hdisj u hu1 (he ▸ hv2), h2open v hv2⟩
    · have hu1 := mlookup_mem m1 sym u hm1
      have := h1lt u hu1
      constructor
      · omega
      · intro hc; have := hclt v hc; omega
    · have hv2 := mlookup_mem m2 sym v hm2
      have := h2lt v hv2
      exact ⟨by omega, h2open v hv2⟩
    · constructor
      · omega
      · intro hc; have := hclt v hc; omega
  refine ⟨feedRemove_eq m1' sym closed hl1 huo, ?_⟩
  have hvo : v ∉ u :: closed := by
    simp only [List.mem_cons, not_or]
    exact ⟨hvne.1, hvne.2⟩
  exact feedRemove_eq m2' sym (u :: closed) hl2 hvo

/-! ### Concrete values used by counterexamples and witnesses -/

/-- A concrete ticker notification for symbol "ETHBTC". -/
def tickerETH : WSNotificationTickerResponse :=
  { ask := "1", bid := "1", last := "1", open_ := "1", low := "1",
    high := "1", volume := "1", volumeQuote := "1", timestamp := "t",
    symbol := "ETHBTC" }

/-- A raw payload every recognized method decodes successfully, all with
symbol "ETHBTC". -/
def payloadAllOkETH : RawPayload :=
  { asTicker := Except.ok tickerETH
    asObSnapshot := Except.ok { ask := [], bid := [], symbol := "ETHBTC",
                                sequence := 1 }
    asObUpdate := Except.ok { ask := [], bid := [], symbol := "ETHBTC",
                              sequence := 2 }
    asTrSnapshot := Except.ok { data := [], symbol := "ETHBTC" }
    asTrUpdate := Except.ok { data := { id := 1, price := "1",
                                        quantity := "1", side := "buy",
                                        timestamp := "t" },
                              symbol := "ETHBTC" }
    asCanSnapshot := Except.ok { data := [], symbol := "ETHBTC",
                                 period := "M30" }
    asCanUpdate := Except.ok { data := { timestamp := "t", open_ := "1",
                                         close_ := "1", min := "1",
                                         max := "1", volume := "1",
                                         volumeQuote := "1" },
                               symbol := "ETHBTC", period := "M30" } }

/-- A raw payload no recognized method decodes: every unmarshal attempt
fails with "bad". -/
def payloadAllBad : RawPayload :=
  { asTicker := Except.error "bad", asObSnapshot := Except.error "bad",
    asObUpdate := Except.error "bad", asTrSnapshot := Except.error "bad",
    asTrUpdate := Except.error "bad", asCanSnapshot := Except.error "bad",
    asCanUpdate := Except.error "bad" }

/-! ### Claim theorems -/

/-- C8: for every inbound message whose method is not one of the seven
recognized notification methods, `Handle` returns with no send event on
any subscriber channel or on the error feed, without crashing, and
without mutating any state (the handler is read-only by construction):
unknown methods are silently ignored. -/
theorem handle_unknown_method_noop (s : WSState) (method : String)
    (params : Option RawPayload)
    (h : method ∉ ["ticker", "snapshotOrderbook", "updateOrderbook",
      "snapshotTrades", "updateTrades", "snapshotCandles",
      "updateCandles"]) :
    Handle s method params = Out.ok [] := by
  cases params with
  | none => rfl
  | some p =>
      unfold Handle
      split <;> simp_all

/-- Witness for C8 at a concrete unrecognized method. -/
theorem handle_unknown_method_noop_witness :
    Handle initState "subscribeReply" (some payloadAllBad) = Out.ok [] :=
  handle_unknown_method_noop initState "subscribeReply" (some payloadAllBad)
    (by decide)

/-- C9: for every recognized method whose payload fails to decode,
`Handle` sends the decode error on the shared error feed — which under
well-formedness is not any subscriber channel — and sends nothing on any
subscriber channel; it returns normally (never terminates the dispatch
path). -/
theorem handle_decode_error_to_error_feed (s : WSState) (p : RawPayload)
    (e : String) (h : WF s) :
    s.errorFeed ∉ allMapIds s ∧
    (p.asTicker = Except.error e →
      Handle s "ticker" (some p) = Out.ok [(s.errorFeed, Sent.errV e)]) ∧
    (p.asObSnapshot = Except.error e →
      Handle s "snapshotOrderbook" (some p) =
        Out.ok [(s.errorFeed, Sent.errV e)]) ∧
    (p.asObUpdate = Except.error e →
      Handle s "updateOrderbook" (some p) =
        Out.ok [(s.errorFeed, Sent.errV e)]) ∧
    (p.asTrSnapshot = Except.error e →
      Handle s "snapshotTrades" (some p) =
        Out.ok [(s.errorFeed, Sent.errV e)]) ∧
    (p.asTrUpdate = Except.error e →
      Handle s "updateTrades" (some p) =
        Out.ok [(s.errorFeed, Sent.errV e)]) ∧
    (p.asCanSnapshot = Except.error e →
      Handle s "snapshotCandles" (some p) =
        Out.ok [(s.errorFeed, Sent.errV e)]) ∧
    (p.asCanUpdate = Except.error e →
      Handle s "updateCandles" (some p) =
        Out.ok [(s.errorFeed, Sent.errV e)]) := by
  refine ⟨h.errorFeed_not_sub, ?_, ?_, ?_, ?_, ?_, ?_, ?_⟩ <;>
    intro hd <;>
    simp [Handle, hd, sendErr, h.errorFeed_open]

/-- Witness for C9: a concrete malformed ticker payload lands on the
error feed. -/
theorem handle_decode_error_to_error_feed_witness :
    Handle initState "ticker" (some payloadAllBad) =
      Out.ok [(initState.errorFeed, Sent.errV "bad")] :=
  (handle_decode_error_to_error_feed initState payloadAllBad "bad"
    ⟨by decide, by decide, by decide, by decide⟩).2.1 (by decide)

/-- C10: with a nil connection handle, the ticker/trades/order-book
subscribe and unsubscribe operations return the "Connection is
unitialized" error without issuing a transport call and without mutating
any feed map, while `candlesSubscriptionOp` — hence `SubscribeCandles`
and `UnsubscribeCandles` — performs no nil check and issues the transport
call (dereferencing the connection) unconditionally. -/
theorem nil_connection_check_asymmetry (s : WSState) (call : CallResult)
    (sym p : String) (hnil : s.connNil = true) :
    subscriptionOp s.connNil call =
      { called := false, err := some SubErrB.connUninit } ∧
    SubscribeTicker s call sym =
      Out.ok { upd := none, snap := none,
               err := some { annot := "Hitbtc SubscribeTicker",
                             base := SubErrB.connUninit },
               called := false, st := s } ∧
    UnsubscribeTicker s call sym =
      Out.ok { err := some { annot := "Hitbtc UnsubscribeTicker",
                             base := SubErrB.connUninit },
               called := false, st := s } ∧
    SubscribeTrades s call sym =
      Out.ok { upd := none, snap := none,
               err := some { annot := "Hitbtc SubscribeTrades",
                             base := SubErrB.connUninit },
               called := false, st := s } ∧
    UnsubscribeTrades s call sym =
      Out.ok { err := some { annot := "Hitbtc UnsubscribeTrades",
                             base := SubErrB.connUninit },
               called := false, st := s } ∧
    SubscribeOrderbook s call sym =
      Out.ok { upd := none, snap := none,
               err := some { annot := "Hitbtc SubscribeOrderbook",
                             base := SubErrB.connUninit },
               called := false, st := s } ∧
    UnsubscribeOrderbook s call sym =
      Out.ok { err := some { annot := "Hitbtc UnsubscribeOrderbook",
                             base := SubErrB.connUninit },
               called := false, st := s } ∧
    (candlesSubscriptionOp call).called = true ∧
    ((SubscribeCandles s call sym p).valD noSubRes).called = true ∧
    (UnsubscribeCandles s call sym p =
        Out.panicked "close of nil or closed channel" ∨
      ((UnsubscribeCandles s call sym p).valD noUnsubRes).called = true) := by
  refine ⟨?_, ?_, ?_, ?_, ?_, ?_, ?_, ?_, ?_, ?_⟩
  · simp [subscriptionOp, hnil]
  · simp [SubscribeTicker, subscriptionOp, hnil]
  · simp [UnsubscribeTicker, subscriptionOp, hnil]
  · simp [SubscribeTrades, subscriptionOp, hnil]
  · simp [UnsubscribeTrades, subscriptionOp, hnil]
  · simp [SubscribeOrderbook, subscriptionOp, hnil]
  · simp [UnsubscribeOrderbook, subscriptionOp, hnil]
  · cases call <;> simp [candlesSubscriptionOp]
  · cases call <;> simp [SubscribeCandles, candlesSubscriptionOp, Out.valD]
  · cases call with
    | error e => simp [UnsubscribeCandles, candlesSubscriptionOp, Out.valD]
    | ok b =>
        unfold UnsubscribeCandles
        cases hR1 : feedRemove s.candlesUpdFeed sym s.closedChans with
        | none => left; simp [candlesSubscriptionOp, hR1]
        | some pq =>
            obtain ⟨m1, c1⟩ := pq
            cases hR2 : feedRemove s.candlesSnapFeed sym c1 with
            | none => left; simp [candlesSubscriptionOp, hR1, hR2]
            | some pq2 =>
                obtain ⟨m2, c2⟩ := pq2
                right
                simp [candlesSubscriptionOp, hR1, hR2, Out.valD]

/-- Witness for C10 at a nil-connection state. -/
theorem nil_connection_check_asymmetry_witness :
    SubscribeTicker { initState with connNil := true } (Except.ok true)
        "ETHBTC" =
      Out.ok { upd := none, snap := none,
               err := some { annot := "Hitbtc SubscribeTicker",
                             base := SubErrB.connUninit },
               called := false, st := { initState with connNil := true } } :=
  (nil_connection_check_asymmetry { initState with connNil := true }
    (Except.ok true) "ETHBTC" "H1" rfl).2.1

/-- C1 (amended): at a false subscribe acknowledgment the ticker, trades
and order-book subscribes return the rejected-subscription error without
mutating the registry; the candles subscribe, whose op never inspects
the acknowledgment, returns no error and creates the registry entries. -/
theorem subscribe_false_ack_behavior (s : WSState) (sym p : String)
    (hnil : s.connNil = false) :
    SubscribeTicker s (Except.ok false) sym =
      Out.ok { upd := none, snap := none,
               err := some { annot := "Hitbtc SubscribeTicker",
                             base := SubErrB.rejected },
               called := true, st := s } ∧
    SubscribeTrades s (Except.ok false) sym =
      Out.ok { upd := none, snap := none,
               err := some { annot := "Hitbtc SubscribeTrades",
                             base := SubErrB.rejected },
               called := true, st := s } ∧
    SubscribeOrderbook s (Except.ok false) sym =
      Out.ok { upd := none, snap := none,
               err := some { annot := "Hitbtc SubscribeOrderbook",
                             base := SubErrB.rejected },
               called := true, st := s } ∧
    ((SubscribeCandles s (Except.ok false) sym p).valD noSubRes).err =
      none ∧
    mlookup ((SubscribeCandles s (Except.ok false) sym
        p).valD noSubRes).st.candlesUpdFeed sym ≠ none ∧
    mlookup ((SubscribeCandles s (Except.ok false) sym
        p).valD noSubRes).st.candlesSnapFeed sym ≠ none := by
  rcases hE1 : feedEnsure s.candlesUpdFeed sym s.nextChan with ⟨m1, u, n1⟩
  rcases hE2 : feedEnsure s.candlesSnapFeed sym n1 with ⟨m2, v, n2⟩
  refine ⟨?_, ?_, ?_, ?_, ?_, ?_⟩
  · simp [SubscribeTicker, subscriptionOp, hnil]
  · simp [SubscribeTrades, subscriptionOp, hnil]
  · simp [SubscribeOrderbook, subscriptionOp, hnil]
  · simp [SubscribeCandles, candlesSubscriptionOp, hE1, hE2, Out.valD]
  · simp [SubscribeCandles, candlesSubscriptionOp, hE1, hE2, Out.valD]
    simp [feedEnsure_lookup s.candlesUpdFeed sym s.nextChan hE1]
  · simp [SubscribeCandles, candlesSubscriptionOp, hE1, hE2, Out.valD]
    simp [feedEnsure_lookup s.candlesSnapFeed sym n1 hE2]

/-- Witness for C1's amended theorem. -/
theorem subscribe_false_ack_behavior_witness :
    SubscribeTicker initState (Except.ok false) "BTCUSD" =
      Out.ok { upd := none, snap := none,
               err := some { annot := "Hitbtc SubscribeTicker",
                             base := SubErrB.rejected },
               called := true, st := initState } :=
  (subscribe_false_ack_behavior initState "BTCUSD" "H1" rfl).1

/-- C1 counterexample: on a false acknowledgment `SubscribeCandles` does
not return the rejected error and does create delivery channels for the
key — the claim fails for the candles topic kind. -/
theorem subscribe_false_ack_candles_cex :
    ((SubscribeCandles initState (Except.ok false) "BTCUSD"
        "H1").valD noSubRes).err = none ∧
    mlookup ((SubscribeCandles initState (Except.ok false) "BTCUSD"
        "H1").valD noSubRes).st.candlesUpdFeed "BTCUSD" = some 1 ∧
    mlookup ((SubscribeCandles initState (Except.ok false) "BTCUSD"
        "H1").valD noSubRes).st.candlesSnapFeed "BTCUSD" = some 2 := by
  decide

/-- C4 (amended): when the transport call of an unsubscribe completes
without a transport error but with a false acknowledgment, the ticker,
trades and order-book unsubscribes do NOT proceed: they return the
rejected error and leave the registry untouched; only the candles
unsubscribe, whose op ignores the boolean, proceeds identically on a
true or false acknowledgment. -/
theorem unsubscribe_false_ack_behavior (s : WSState) (sym p : String)
    (hnil : s.connNil = false) :
    UnsubscribeTicker s (Except.ok false) sym =
      Out.ok { err := some { annot := "Hitbtc UnsubscribeTicker",
                             base := SubErrB.rejected },
               called := true, st := s } ∧
    UnsubscribeTrades s (Except.ok false) sym =
      Out.ok { err := some { annot := "Hitbtc UnsubscribeTrades",
                             base := SubErrB.rejected },
               called := true, st := s } ∧
    UnsubscribeOrderbook s (Except.ok false) sym =
      Out.ok { err := some { annot := "Hitbtc UnsubscribeOrderbook",
                             base := SubErrB.rejected },
               called := true, st := s } ∧
    UnsubscribeCandles s (Except.ok false) sym p =
      UnsubscribeCandles s (Except.ok true) sym p := by
  refine ⟨?_, ?_, ?_, rfl⟩
  · simp [UnsubscribeTicker, subscriptionOp, hnil]
  · simp [UnsubscribeTrades, subscriptionOp, hnil]
  · simp [UnsubscribeOrderbook, subscriptionOp, hnil]

/-- Witness for C4's amended theorem. -/
theorem unsubscribe_false_ack_behavior_witness :
    UnsubscribeTicker initState (Except.ok false) "ETHBTC" =
      Out.ok { err := some { annot := "Hitbtc UnsubscribeTicker",
                             base := SubErrB.rejected },
               called := true, st := initState } :=
  (unsubscribe_false_ack_behavior initState "ETHBTC" "H1" rfl).1

/-- C4 counterexample: after a successful order-book subscribe, an
unsubscribe whose transport call succeeds with acknowledgment false
returns an error and neither closes the channels nor deletes the
registry entry — contradicting "proceeds regardless of the boolean and
returns without error". -/
theorem unsubscribe_false_ack_cex :
    UnsubscribeOrderbook
        ((SubscribeOrderbook initState (Except.ok true)
          "ETHBTC").valD noSubRes).st (Except.ok false) "ETHBTC" =
      Out.ok { err := some { annot := "Hitbtc UnsubscribeOrderbook",
                             base := SubErrB.rejected },
               called := true,
               st := ((SubscribeOrderbook initState (Except.ok true)
                 "ETHBTC").valD noSubRes).st } ∧
    mlookup ((SubscribeOrderbook initState (Except.ok true)
        "ETHBTC").valD noSubRes).st.obUpdFeed "ETHBTC" = some 1 ∧
    ((SubscribeOrderbook initState (Except.ok true)
        "ETHBTC").valD noSubRes).st.closedChans = [] := by
  decide

/-- C2 (amended): calling an unsubscribe operation for a symbol that was
never subscribed, after the server acknowledges the request, is not a
silent no-op: every unsubscribe closes the map entry's channel, which
for an absent key is the nil zero value, so the call panics ("close of
nil channel"). -/
theorem unsubscribe_absent_key_panics (s : WSState) (sym p : String)
    (hnil : s.connNil = false)
    (h1 : mlookup s.tickerFeed sym = none)
    (h2 : mlookup s.tradesUpdFeed sym = none)
    (h3 : mlookup s.obUpdFeed sym = none)
    (h4 : mlookup s.candlesUpdFeed sym = none) :
    UnsubscribeTicker s (Except.ok true) sym =
      Out.panicked "close of nil or closed channel" ∧
    UnsubscribeTrades s (Except.ok true) sym =
      Out.panicked "close of nil or closed channel" ∧
    UnsubscribeOrderbook s (Except.ok true) sym =
      Out.panicked "close of nil or closed channel" ∧
    UnsubscribeCandles s (Except.ok true) sym p =
      Out.panicked "close of nil or closed channel" := by
  refine ⟨?_, ?_, ?_, ?_⟩
  · simp [UnsubscribeTicker, subscriptionOp, hnil, feedRemove, h1]
  · simp [UnsubscribeTrades, subscriptionOp, hnil, feedRemove, h2]
  · simp [UnsubscribeOrderbook, subscriptionOp, hnil, feedRemove, h3]
  · simp [UnsubscribeCandles, candlesSubscriptionOp, feedRemove, h4]

/-- Witness for C2's amended theorem. -/
theorem unsubscribe_absent_key_panics_witness :
    UnsubscribeTrades initState (Except.ok true) "XRPUSD" =
      Out.panicked "close of nil or closed channel" :=
  (unsubscribe_absent_key_panics initState "XRPUSD" "H1" rfl rfl rfl rfl
    rfl).2.1

/-- C2 counterexample: unsubscribing the never-subscribed symbol
"ETHBTC" from the fresh client state panics even though the server
acknowledged the unsubscribe — the removal is not a silent no-op and the
call does not return an error. -/
theorem unsubscribe_absent_key_cex :
    UnsubscribeTicker initState (Except.ok true) "ETHBTC" =
      Out.panicked "close of nil or closed channel" := by
  decide

/-- C3 (amended): a recognized notification that decodes successfully
for a symbol with no registered delivery channel does not panic and the
value never appears on any channel, but the dispatch does not complete
either: the send on the nil channel obtained from the map blocks
forever. -/
theorem dispatch_unregistered_symbol_blocks (s : WSState) (p : RawPayload)
    (mT : WSNotificationTickerResponse)
    (mOS : WSNotificationOrderbookSnapshot)
    (mOU : WSNotificationOrderbookUpdate)
    (mTS : WSNotificationTradesSnapshot)
    (mTU : WSNotificationTradesUpdate)
    (mCS : WSNotificationCandlesSnapshot)
    (mCU : WSNotificationCandlesUpdate)
    (hT : p.asTicker = Except.ok mT)
    (hTl : mlookup s.tickerFeed mT.symbol = none)
    (hOS : p.asObSnapshot = Except.ok mOS)
    (hOSl : mlookup s.obSnapFeed mOS.symbol = none)
    (hOU : p.asObUpdate = Except.ok mOU)
    (hOUl : mlookup s.obUpdFeed mOU.symbol = none)
    (hTS : p.asTrSnapshot = Except.ok mTS)
    (hTSl : mlookup s.tradesSnapFeed mTS.symbol = none)
    (hTU : p.asTrUpdate = Except.ok mTU)
    (hTUl : mlookup s.tradesUpdFeed mTU.symbol = none)
    (hCS : p.asCanSnapshot = Except.ok mCS)
    (hCSl : mlookup s.candlesSnapFeed mCS.symbol = none)
    (hCU : p.asCanUpdate = Except.ok mCU)
    (hCUl : mlookup s.candlesUpdFeed mCU.symbol = none) :
    Handle s "ticker" (some p) = Out.blocked ∧
    Handle s "snapshotOrderbook" (some p) = Out.blocked ∧
    Handle s "updateOrderbook" (some p) = Out.blocked ∧
    Handle s "snapshotTrades" (some p) = Out.blocked ∧
    Handle s "updateTrades" (some p) = Out.blocked ∧
    Handle s "snapshotCandles" (some p) = Out.blocked ∧
    Handle s "updateCandles" (some p) = Out.blocked := by
  refine ⟨?_, ?_, ?_, ?_, ?_, ?_, ?_⟩
  · simp [Handle, hT, sendOn, hTl]
  · simp [Handle, hOS, sendOn, hOSl]
  · simp [Handle, hOU, sendOn, hOUl]
  · simp [Handle, hTS, sendOn, hTSl]
  · simp [Handle, hTU, sendOn, hTUl]
  · simp [Handle, hCS, sendOn, hCSl]
  · simp [Handle, hCU, sendOn, hCUl]

/-- Witness for C3's amended theorem. -/
theorem dispatch_unregistered_symbol_blocks_witness :
    Handle initState "ticker" (some payloadAllOkETH) = Out.blocked :=
  (dispatch_unregistered_symbol_blocks initState payloadAllOkETH
    tickerETH { ask := [], bid := [], symbol := "ETHBTC", sequence := 1 }
    { ask := [], bid := [], symbol := "ETHBTC", sequence := 2 }
    { data := [], symbol := "ETHBTC" }
    { data := { id := 1, price := "1", quantity := "1", side := "buy",
                timestamp := "t" }, symbol := "ETHBTC" }
    { data := [], symbol := "ETHBTC", period := "M30" }
    { data := { timestamp := "t", open_ := "1", close_ := "1", min := "1",
                max := "1", volume := "1", volumeQuote := "1" },
      symbol := "ETHBTC", period := "M30" }
    rfl rfl rfl rfl rfl rfl rfl rfl rfl rfl rfl rfl rfl rfl).1

/-- C3 counterexample: a decoded `updateTrades` for a symbol nobody
subscribed makes `Handle` block forever (send on a nil channel) instead
of completing with the message dropped. -/
theorem dispatch_unregistered_symbol_cex :
    Handle initState "updateTrades" (some payloadAllOkETH) =
      Out.blocked := by
  decide

/-- C7 (amended): re-subscribing candles for an already-subscribed
symbol — with any period and any acknowledgments — returns the very same
channel pair as the first subscribe and leaves the state unchanged: the
registry entry is reused, not replaced, so only one timeframe per symbol
is active and the second period's subscribe creates nothing new. -/
theorem candles_resubscribe_reuses_pair (s : WSState)
    (sym p1 p2 : String) (a1 a2 : Bool) :
    SubscribeCandles
        ((SubscribeCandles s (Except.ok a1) sym p1).valD noSubRes).st
        (Except.ok a2) sym p2 =
      Out.ok { upd := ((SubscribeCandles s (Except.ok a1) sym
                 p1).valD noSubRes).upd,
               snap := ((SubscribeCandles s (Except.ok a1) sym
                 p1).valD noSubRes).snap,
               err := none, called := true,
               st := ((SubscribeCandles s (Except.ok a1) sym
                 p1).valD noSubRes).st } := by
  rcases hE1 : feedEnsure s.candlesUpdFeed sym s.nextChan with ⟨m1, u, n1⟩
  rcases hE2 : feedEnsure s.candlesSnapFeed sym n1 with ⟨m2, v, n2⟩
  have hl1 : mlookup m1 sym = some u :=
    feedEnsure_lookup s.candlesUpdFeed sym s.nextChan hE1
  have hl2 : mlookup m2 sym = some v :=
    feedEnsure_lookup s.candlesSnapFeed sym n1 hE2
  simp [SubscribeCandles, candlesSubscriptionOp, hE1, hE2, Out.valD,
    feedEnsure_of_lookup m1 sym n2 hl1, feedEnsure_of_lookup m2 sym n2 hl2]

/-- C7 counterexample: subscribing "BTCUSD" candles with period "H1" and
re-subscribing with period "M30" yields the identical channel pair and
an unchanged registry — the first pair is not superseded by a new one. -/
theorem candles_resubscribe_cex :
    ((SubscribeCandles ((SubscribeCandles initState (Except.ok true)
        "BTCUSD" "H1").valD noSubRes).st (Except.ok true) "BTCUSD"
        "M30").valD noSubRes).upd =
      ((SubscribeCandles initState (Except.ok true) "BTCUSD"
        "H1").valD noSubRes).upd ∧
    ((SubscribeCandles ((SubscribeCandles initState (Except.ok true)
        "BTCUSD" "H1").valD noSubRes).st (Except.ok true) "BTCUSD"
        "M30").valD noSubRes).snap =
      ((SubscribeCandles initState (Except.ok true) "BTCUSD"
        "H1").valD noSubRes).snap ∧
    ((SubscribeCandles ((SubscribeCandles initState (Except.ok true)
        "BTCUSD" "H1").valD noSubRes).st (Except.ok true) "BTCUSD"
        "M30").valD noSubRes).st =
      ((SubscribeCandles initState (Except.ok true) "BTCUSD"
        "H1").valD noSubRes).st := by
  decide

/-- C6: a single `Close` on a well-formed live state succeeds without
panicking: it marks the transport closed, closes every channel held in
the seven feed maps and the error feed (the error feed being the last
element of the close sequence), resets every feed map to a fresh empty
map, and reinitializes the error feed to a fresh channel that is open in
the resulting state. -/
theorem close_spec (s : WSState) (h : WF s) (hnil : s.connNil = false) :
    Close s =
      Out.ok { connNil := false, connClosed := true,
               tickerFeed := [], tradesUpdFeed := [], tradesSnapFeed := [],
               obUpdFeed := [], obSnapFeed := [], candlesUpdFeed := [],
               candlesSnapFeed := [],
               errorFeed := s.nextChan, nextChan := s.nextChan + 1,
               closedChans := (allMapIds s ++ [s.errorFeed]).reverse ++
                 s.closedChans } ∧
    (∀ id ∈ allMapIds s,
      id ∈ (allMapIds s ++ [s.errorFeed]).reverse ++ s.closedChans) ∧
    s.errorFeed ∈ (allMapIds s ++ [s.errorFeed]).reverse ++ s.closedChans ∧
    s.nextChan ∉ (allMapIds s ++ [s.errorFeed]).reverse ++ s.closedChans := by
  have hca := closeAll_ok (allMapIds s ++ [s.errorFeed]) s.closedChans
    h.nodup h.openIds
  refine ⟨?_, ?_, ?_, ?_⟩
  · simp [Close, hnil, hca]
  · intro id hid
    simp only [List.mem_append, List.mem_reverse]
    exact Or.inl (Or.inl hid)
  · simp only [List.mem_append, List.mem_reverse]
    exact Or.inl (Or.inr (by simp))
  · simp only [List.mem_append, List.mem_reverse, not_or]
    refine ⟨⟨fun hm => lt_irrefl _
      (h.ltNext _ (List.mem_append_left _ hm)), ?_⟩, h.next_open⟩
    intro hm
    have := h.ltNext s.nextChan (List.mem_append_right _ hm)
    omega

/-- Witness for C6: closing the fresh client after one trades subscribe
closes channels 1, 2 and the error feed 0, and reinitializes cleanly. -/
theorem close_spec_witness :
    Close ((SubscribeTrades initState (Except.ok true)
        "ETHBTC").valD noSubRes).st =
      Out.ok { connNil := false, connClosed := true,
               tickerFeed := [], tradesUpdFeed := [], tradesSnapFeed := [],
               obUpdFeed := [], obSnapFeed := [], candlesUpdFeed := [],
               candlesSnapFeed := [],
               errorFeed := 3, nextChan := 4,
               closedChans := [0, 2, 1] } := by
  have := (close_spec ((SubscribeTrades initState (Except.ok true)
      "ETHBTC").valD noSubRes).st
    ⟨by decide, by decide, by decide, by decide⟩ (by decide)).1
  exact this.trans (by decide)

/-- C5: for every topic kind, on a well-formed state a successful
subscribe immediately followed by a successful unsubscribe returns no
error from either call, leaves the registry with no entry for the
symbol, and closes every channel the subscribe returned, so a receive on
each now yields the closed/no-more-values signal instead of blocking. -/
theorem subscribe_unsubscribe_roundtrip (s : WSState) (sym : String)
    (h : WF s) (hnil : s.connNil = false) :
    (let r := (SubscribeTicker s (Except.ok true) sym).valD noSubRes
     let r2 := (UnsubscribeTicker r.st (Except.ok true) sym).valD noUnsubRes
     SubscribeTicker s (Except.ok true) sym = Out.ok r ∧
     UnsubscribeTicker r.st (Except.ok true) sym = Out.ok r2 ∧
     r.err = none ∧ r2.err = none ∧
     mlookup r2.st.tickerFeed sym = none ∧
     recvOn r2.st.closedChans r.upd = Out.ok none) ∧
    (let r := (SubscribeTrades s (Except.ok true) sym).valD noSubRes
     let r2 := (UnsubscribeTrades r.st (Except.ok true) sym).valD noUnsubRes
     SubscribeTrades s (Except.ok true) sym = Out.ok r ∧
     UnsubscribeTrades r.st (Except.ok true) sym = Out.ok r2 ∧
     r.err = none ∧ r2.err = none ∧
     mlookup r2.st.tradesUpdFeed sym = none ∧
     mlookup r2.st.tradesSnapFeed sym = none ∧
     recvOn r2.st.closedChans r.upd = Out.ok none ∧
     recvOn r2.st.closedChans r.snap = Out.ok none) ∧
    (let r := (SubscribeOrderbook s (Except.ok true) sym).valD noSubRes
     let r2 := (UnsubscribeOrderbook r.st (Except.ok true)
       sym).valD noUnsubRes
     SubscribeOrderbook s (Except.ok true) sym = Out.ok r ∧
     UnsubscribeOrderbook r.st (Except.ok true) sym = Out.ok r2 ∧
     r.err = none ∧ r2.err = none ∧
     mlookup r2.st.obUpdFeed sym = none ∧
     mlookup r2.st.obSnapFeed sym = none ∧
     recvOn r2.st.closedChans r.upd = Out.ok none ∧
     recvOn r2.st.closedChans r.snap = Out.ok none) ∧
    (let r := (SubscribeCandles s (Except.ok true) sym "M30").valD noSubRes
     let r2 := (UnsubscribeCandles r.st (Except.ok true) sym
       "M30").valD noUnsubRes
     SubscribeCandles s (Except.ok true) sym "M30" = Out.ok r ∧
     UnsubscribeCandles r.st (Except.ok true) sym "M30" = Out.ok r2 ∧
     r.err = none ∧ r2.err = none ∧
     mlookup r2.st.candlesUpdFeed sym = none ∧
     mlookup r2.st.candlesSnapFeed sym = none ∧
     recvOn r2.st.closedChans r.upd = Out.ok none ∧
     recvOn r2.st.closedChans r.snap = Out.ok none) := by
  refine ⟨?_, ?_, ?_, ?_⟩
  · rcases hE : feedEnsure s.tickerFeed sym s.nextChan with ⟨m, u, n⟩
    have hl : mlookup m sym = some u := feedEnsure_lookup _ _ _ hE
    have huo : u ∉ s.closedChans := by
      rcases feedEnsure_cases _ _ _ hE with ⟨hm, _, _⟩ | ⟨_, hu, _, _⟩
      · exact h.mapIds_open ((mem_allMapIds s u).mpr
          (Or.inl (mlookup_mem _ _ _ hm)))
      · subst hu; exact h.next_open
    have hR := feedRemove_eq m sym s.closedChans hl huo
    simp [SubscribeTicker, UnsubscribeTicker, subscriptionOp, hnil, hE,
      Out.valD, hR, mlookup_merase_self, recvOn]
  · rcases hE1 : feedEnsure s.tradesUpdFeed sym s.nextChan with ⟨m1, u, n1⟩
    rcases hE2 : feedEnsure s.tradesSnapFeed sym n1 with ⟨m2, v, n2⟩
    obtain ⟨hR1, hR2⟩ := ensure_remove_two s.tradesUpdFeed s.tradesSnapFeed
      sym s.nextChan s.closedChans hE1 hE2
      (fun a ha => h.mapIds_open (by rw [mem_allMapIds]; tauto))
      (fun a ha => h.mapIds_lt (by rw [mem_allMapIds]; tauto))
      (fun a ha => h.mapIds_open (by rw [mem_allMapIds]; tauto))
      (fun a ha => h.mapIds_lt (by rw [mem_allMapIds]; tauto))
      h.disj_pairs.1 h.closedLt
    simp [SubscribeTrades, UnsubscribeTrades, subscriptionOp, hnil, hE1,
      hE2, Out.valD, hR1, hR2, mlookup_merase_self, recvOn]
  · rcases hE1 : feedEnsure s.obUpdFeed sym s.nextChan with ⟨m1, u, n1⟩
    rcases hE2 : feedEnsure s.obSnapFeed sym n1 with ⟨m2, v, n2⟩
    obtain ⟨hR1, hR2⟩ := ensure_remove_two s.obUpdFeed s.obSnapFeed
      sym s.nextChan s.closedChans hE1 hE2
      (fun a ha => h.mapIds_open (by rw [mem_allMapIds]; tauto))
      (fun a ha => h.mapIds_lt (by rw [mem_allMapIds]; tauto))
      (fun a ha => h.mapIds_open (by rw [mem_allMapIds]; tauto))
      (fun a ha => h.mapIds_lt (by rw [mem_allMapIds]; tauto))
      h.disj_pairs.2.1 h.closedLt
    simp [SubscribeOrderbook, UnsubscribeOrderbook, subscriptionOp, hnil,
      hE1, hE2, Out.valD, hR1, hR2, mlookup_merase_self, recvOn]
  · rcases hE1 : feedEnsure s.candlesUpdFeed sym s.nextChan with ⟨m1, u, n1⟩
    rcases hE2 : feedEnsure s.candlesSnapFeed sym n1 with ⟨m2, v, n2⟩
    obtain ⟨hR1, hR2⟩ := ensure_remove_two s.candlesUpdFeed
      s.candlesSnapFeed sym s.nextChan s.closedChans hE1 hE2
      (fun a ha => h.mapIds_open (by rw [mem_allMapIds]; tauto))
      (fun a ha => h.mapIds_lt (by rw [mem_allMapIds]; tauto))
      (fun a ha => h.mapIds_open (by rw [mem_allMapIds]; tauto))
      (fun a ha => h.mapIds_lt (by rw [mem_allMapIds]; tauto))
      h.disj_pairs.2.2 h.closedLt
    simp [SubscribeCandles, UnsubscribeCandles, candlesSubscriptionOp,
      hE1, hE2, Out.valD, hR1, hR2, mlookup_merase_self, recvOn]

/-- Witness for C5 on the fresh client and symbol "ETHBTC". -/
theorem subscribe_unsubscribe_roundtrip_witness :
    mlookup ((UnsubscribeTicker ((SubscribeTicker initState
        (Except.ok true) "ETHBTC").valD noSubRes).st (Except.ok true)
        "ETHBTC").valD noUnsubRes).st.tickerFeed "ETHBTC" = none ∧
    recvOn ((UnsubscribeTicker ((SubscribeTicker initState
        (Except.ok true) "ETHBTC").valD noSubRes).st (Except.ok true)
        "ETHBTC").valD noUnsubRes).st.closedChans
      ((SubscribeTicker initState (Except.ok true)
        "ETHBTC").valD noSubRes).upd = Out.ok none := by
  have := (subscribe_unsubscribe_roundtrip initState "ETHBTC"
    ⟨by decide, by decide, by decide, by decide⟩ rfl).1
  exact ⟨this.2.2.2.2.1, this.2.2.2.2.2⟩

end HitBTC
